import Mathlib

/-!
Verification development for the cencori-go client library.

The development shallowly embeds the request executor (`doRequest` in
`client.go`), the error model (`APIError`, the sentinel table, `fillSentinel`,
`Error()`; the implementation file is not among the sources, so those pieces
are modelled from the specification and pinned by the repository's tests), and
the streaming decoder (the reader goroutine of `ChatService.Stream` in
`client.go`).

Machine integers are modelled as `Int`/`Nat` (no overflow is reachable here:
the only integral data are HTTP status codes), Go's `error` results become
`Option`/sum types, and the external `encoding/json` decoder is realised by an
executable JSON parser over a value tree, mirroring Go's behaviour of ignoring
unknown object fields and failing on wrongly-typed known fields.
-/

namespace Cencori

/-! ## Error model -/

/-- Sentinel error identities from the sentinel table (`ErrInvalidApiKey`,
`ErrRateLimited`, ... in the error model). Each Go sentinel produced by
`errors.New` is a distinct identity; an inductive enumeration captures exactly
that. -/
inductive Sentinel where
  | errInvalidApiKey
  | errRateLimited
  | errInsufficientCredits
  | errTierRestricted
  | errInvalidModel
  | errProvider
  | errContentFiltered
deriving DecidableEq, Repr

/-- The fixed code-to-sentinel lookup table: `INVALID_API_KEY`,
`RATE_LIMIT_EXCEEDED`, `INSUFFICIENT_CREDITS`, `TIER_RESTRICTED`,
`INVALID_MODEL`, `PROVIDER_ERROR`, `CONTENT_FILTERED`, and nothing else. -/
def sentinelFor (code : String) : Option Sentinel :=
  if code == "INVALID_API_KEY" then some .errInvalidApiKey
  else if code == "RATE_LIMIT_EXCEEDED" then some .errRateLimited
  else if code == "INSUFFICIENT_CREDITS" then some .errInsufficientCredits
  else if code == "TIER_RESTRICTED" then some .errTierRestricted
  else if code == "INVALID_MODEL" then some .errInvalidModel
  else if code == "PROVIDER_ERROR" then some .errProvider
  else if code == "CONTENT_FILTERED" then some .errContentFiltered
  else none

/-- The API Error value: HTTP status code, machine code, human message, and
the optional wrapped sentinel (the Go struct's `Err error` field as exposed
through `Unwrap`). -/
structure APIError where
  statusCode : Int
  code : String
  message : String
  wrapped : Option Sentinel := none
deriving DecidableEq, Repr

/-- Modelled from the spec: `fillSentinel` lives in the error-model source
file, which is not among the sources here (only its tests and callers are).
Per the spec it "looks up `code` in the sentinel table and sets `wrapped` if
found; a no-op (leaves `wrapped` unset) for unrecognized codes". -/
def APIError.fillSentinel (e : APIError) : APIError :=
  match sentinelFor e.code with
  | some s => { e with wrapped := some s }
  | none => e

/-- Identity-based error matching: Go's `errors.Is(err, sentinel)` walks the
`Unwrap` chain of the API Error, which exposes the wrapped sentinel, so the
match succeeds exactly when `wrapped` holds that sentinel. -/
def errorsIs (e : APIError) (s : Sentinel) : Prop :=
  e.wrapped = some s

/-- Modelled from the spec: `Error()` formatting lives in the error-model
source file, which is not among the sources here. Per the spec: "if `code` is
non-empty, render `\"<namespace>: <message> (code: <code>, status:
<status_code>)\"`; otherwise `\"<namespace>: <message> (status:
<status_code>)\"`"; the namespace is `cencori`, as pinned by
`TestAPIError_Error`. -/
def APIError.Error (e : APIError) : String :=
  if e.code ≠ "" then
    "cencori: " ++ e.message ++ " (code: " ++ e.code ++ ", status: "
      ++ toString e.statusCode ++ ")"
  else
    "cencori: " ++ e.message ++ " (status: " ++ toString e.statusCode ++ ")"

/-! ## A small executable JSON model

Go's `encoding/json` is library code outside the repository; the executor and
the stream decoder call it on response bodies and data-frame payloads. It is
realised here by an executable parser into a value tree, sufficient for the
documents the wire protocol carries (objects, arrays, strings, integers,
booleans, null). -/

/-- A parsed JSON value. -/
inductive JVal where
  | str (s : String)
  | num (n : Int)
  | jbool (b : Bool)
  | null
  | arr (items : List JVal)
  | obj (fields : List (String × JVal))

/-- The double-quote character. -/
def quoteChar : Char := Char.ofNat 34

/-- The backslash character. -/
def backslashChar : Char := Char.ofNat 92

/-- The opening-brace character. -/
def lbraceChar : Char := Char.ofNat 123

/-- The closing-brace character. -/
def rbraceChar : Char := Char.ofNat 125

/-- Drop leading JSON whitespace. -/
def skipWs : List Char → List Char
  | [] => []
  | c :: cs =>
    if c == ' ' || c == '\n' || c == '\t' || c == '\r' then skipWs cs
    else c :: cs

/-- Translate a JSON escape character to the character it denotes. -/
def escChar (c : Char) : Option Char :=
  if c == quoteChar then some quoteChar
  else if c == backslashChar then some backslashChar
  else if c == '/' then some '/'
  else if c == 'n' then some '\n'
  else if c == 't' then some '\t'
  else if c == 'r' then some '\r'
  else none

/-- Parse the body of a JSON string literal (the opening quote already
consumed), returning the decoded characters and the rest of the input. -/
def parseStrBody : List Char → Option (List Char × List Char)
  | [] => none
  | c :: cs =>
    if c == quoteChar then some ([], cs)
    else if c == backslashChar then
      match cs with
      | [] => none
      | e :: cs2 =>
        match escChar e, parseStrBody cs2 with
        | some d, some (out, rest) => some (d :: out, rest)
        | _, _ => none
    else
      match parseStrBody cs with
      | some (out, rest) => some (c :: out, rest)
      | none => none

/-- Parse a nonempty run of decimal digits. -/
def parseDigits : List Char → Option (Nat × List Char)
  | [] => none
  | c :: cs =>
    if c.isDigit then
      match parseDigits cs with
      | some (n, rest) => some ((c.toNat - 48) * (10 ^ (numDigitsAux cs)) + n, rest)
      | none => some (c.toNat - 48, cs)
    else none
where
  /-- Count the leading digits of the remaining input. -/
  numDigitsAux : List Char → Nat
    | [] => 0
    | c :: cs => if c.isDigit then numDigitsAux cs + 1 else 0

/-- A pending container during parsing: an array collecting items, or an
object collecting fields while holding the key whose value is being read. -/
inductive PFrame where
  | arrF (acc : List JVal)
  | objF (acc : List (String × JVal)) (key : String)

/-- Parser mode: expecting a value, or having just completed one. -/
inductive PMode where
  | value
  | after (v : JVal)

/-- One fuel-indexed step machine for JSON documents: `PMode.value` consumes
the next value (pushing a frame for containers), `PMode.after` closes or
continues the enclosing container. Every recursive call consumes at least one
input character, so fuel `input.length + 1` always suffices. -/
def pstep : Nat → PMode → List PFrame → List Char → Option (JVal × List Char)
  | 0, _, _, _ => none
  | fuel + 1, PMode.value, st, input =>
    match skipWs input with
    | [] => none
    | c :: cs =>
      if c == quoteChar then
        match parseStrBody cs with
        | some (out, rest) => pstep fuel (PMode.after (JVal.str (String.mk out))) st rest
        | none => none
      else if c == lbraceChar then
        match skipWs cs with
        | [] => none
        | c2 :: cs2 =>
          if c2 == rbraceChar then pstep fuel (PMode.after (JVal.obj [])) st cs2
          else if c2 == quoteChar then
            match parseStrBody cs2 with
            | some (kout, r1) =>
              match skipWs r1 with
              | [] => none
              | c3 :: r2 =>
                if c3 == ':' then
                  pstep fuel PMode.value (PFrame.objF [] (String.mk kout) :: st) r2
                else none
            | none => none
          else none
      else if c == '[' then
        match skipWs cs with
        | [] => none
        | c2 :: cs2 =>
          if c2 == ']' then pstep fuel (PMode.after (JVal.arr [])) st cs2
          else pstep fuel PMode.value (PFrame.arrF [] :: st) (c2 :: cs2)
      else if c == 't' then
        match cs with
        | 'r' :: 'u' :: 'e' :: rest => pstep fuel (PMode.after (JVal.jbool true)) st rest
        | _ => none
      else if c == 'f' then
        match cs with
        | 'a' :: 'l' :: 's' :: 'e' :: rest => pstep fuel (PMode.after (JVal.jbool false)) st rest
        | _ => none
      else if c == 'n' then
        match cs with
        | 'u' :: 'l' :: 'l' :: rest => pstep fuel (PMode.after JVal.null) st rest
        | _ => none
      else if c == '-' then
        match parseDigits cs with
        | some (n, rest) => pstep fuel (PMode.after (JVal.num (-(n : Int)))) st rest
        | none => none
      else if c.isDigit then
        match parseDigits (c :: cs) with
        | some (n, rest) => pstep fuel (PMode.after (JVal.num (n : Int))) st rest
        | none => none
      else none
  | fuel + 1, PMode.after v, st, input =>
    match st with
    | [] => some (v, input)
    | PFrame.arrF acc :: st2 =>
      match skipWs input with
      | [] => none
      | c :: cs =>
        if c == ',' then pstep fuel PMode.value (PFrame.arrF (v :: acc) :: st2) cs
        else if c == ']' then
          pstep fuel (PMode.after (JVal.arr (v :: acc).reverse)) st2 cs
        else none
    | PFrame.objF acc key :: st2 =>
      match skipWs input with
      | [] => none
      | c :: cs =>
        if c == ',' then
          match skipWs cs with
          | [] => none
          | k :: ks =>
            if k == quoteChar then
              match parseStrBody ks with
              | some (kout, r1) =>
                match skipWs r1 with
                | [] => none
                | c2 :: r2 =>
                  if c2 == ':' then
                    pstep fuel PMode.value
                      (PFrame.objF ((key, v) :: acc) (String.mk kout) :: st2) r2
                  else none
              | none => none
            else none
        else if c == rbraceChar then
          pstep fuel (PMode.after (JVal.obj ((key, v) :: acc).reverse)) st2 cs
        else none

/-- Parse a complete JSON document: one value, with only whitespace allowed
after it (Go's `json.Unmarshal` rejects trailing garbage). -/
def parseJson (s : String) : Option JVal :=
  match pstep (s.length + 1) PMode.value [] s.data with
  | some (v, rest) => if (skipWs rest).isEmpty then some v else none
  | none => none

/-! ## Decoding wire shapes -/

/-- Look up a field that must be a string if present. The outer `none` means
the document cannot decode (present with a wrong type); `some none` means the
field is absent (Go leaves the struct field at its zero value); `some (some v)`
is a present string field. Go's decoder ignores unknown fields, so only the
tagged fields are inspected. -/
def getStrField (fields : List (String × JVal)) (key : String) :
    Option (Option String) :=
  match fields.lookup key with
  | none => some none
  | some (JVal.str s) => some (some s)
  | some _ => none

/-- Look up a field that must be a number if present, with the same
conventions as `getStrField`. -/
def getNumField (fields : List (String × JVal)) (key : String) :
    Option (Option Int) :=
  match fields.lookup key with
  | none => some none
  | some (JVal.num n) => some (some n)
  | some _ => none

/-- Modelled from the spec: the API Error wire shape and its JSON decoding
live in the error-model source file, which is not among the sources here (only
its tests and callers are). Per the spec the failure body is
`{error: string, code: string}`-shaped JSON ("attempt to JSON-decode the body
into the API Error shape"), optionally carrying a status field, and "the
sentinel table is consulted to populate `wrapped`" when an API Error is
decoded — which is what makes `TestDoRequest_401MapsToTypedError` pass.
Go's decoder accepts any object (ignoring unknown fields) or `null`, and
fails on non-object documents and wrongly-typed known fields. -/
def unmarshalAPIError (s : String) : Option APIError :=
  match parseJson s with
  | some (JVal.obj fields) =>
    match getStrField fields "code", getStrField fields "error",
        getNumField fields "status_code" with
    | some c, some m, some sc =>
      some (APIError.fillSentinel
        { statusCode := sc.getD 0, code := c.getD "", message := m.getD "" })
    | _, _, _ => none
  | some JVal.null => some { statusCode := 0, code := "", message := "" }
  | _ => none

/-- The delta payload of a streamed choice (`delta.content`). Modelled from
the spec and the repository's tests: the chunk type's source file is not among
the sources here. -/
structure Delta where
  content : String := ""
deriving DecidableEq, Repr

/-- One streamed choice, carrying a delta. -/
structure Choice where
  delta : Delta := {}
deriving DecidableEq, Repr

/-- The error slot of a stream chunk: an API-reported error frame, a low-level
read failure, or a chunk-decode failure (Go stores these in the chunk's
`Err error` field as `*APIError` or a wrapped local error). -/
inductive ChunkErr where
  | api (e : APIError)
  | readFail (msg : String)
  | decodeFail (msg : String)
deriving DecidableEq, Repr

/-- A stream chunk: either a partial-content delta payload or an embedded
error. Modelled from the spec and the repository's tests (the type's source
file is not among the sources here): choices decode from the `choices` field,
`Err` never comes from the wire. -/
structure StreamChunk where
  choices : List Choice := []
  err : Option ChunkErr := none
deriving DecidableEq, Repr

/-- Decode one choice object: `delta` must be an object if present, and
`delta.content` a string if present; other fields are ignored. -/
def choiceOfJson : JVal → Option Choice
  | JVal.obj fields =>
    match fields.lookup "delta" with
    | none => some {}
    | some (JVal.obj dfields) =>
      match getStrField dfields "content" with
      | some c => some { delta := { content := c.getD "" } }
      | none => none
    | some _ => none
  | _ => none

/-- Decode the list of choices elementwise. -/
def choicesOfJson : List JVal → Option (List Choice)
  | [] => some []
  | v :: vs =>
    match choiceOfJson v, choicesOfJson vs with
    | some c, some cs => some (c :: cs)
    | _, _ => none

/-- Decode a data-frame payload into the chunk shape, with Go's conventions:
any object (unknown fields ignored) or `null` decodes, a present `choices`
field must be an array of choice objects, and non-object documents fail. -/
def unmarshalChunk (s : String) : Option StreamChunk :=
  match parseJson s with
  | some (JVal.obj fields) =>
    match fields.lookup "choices" with
    | none => some {}
    | some (JVal.arr items) =>
      match choicesOfJson items with
      | some cs => some { choices := cs }
      | none => none
    | some _ => none
  | some JVal.null => some {}
  | _ => none

/-! ## The request executor -/

/-- Local (non-API) failure kinds of the executor: request serialization,
request construction, transport execution, and success-body decoding. Each is
surfaced as a wrapped plain error in Go, never as an `APIError`. -/
inductive LocalErrKind where
  | marshal
  | createRequest
  | execute
  | decode
deriving DecidableEq, Repr

/-- The executor's outcome: exactly one of a local error, an API Error, or a
decoded typed response. -/
inductive DoResult (Resp : Type) where
  | localErr (kind : LocalErrKind)
  | apiError (e : APIError)
  | success (r : Resp)
deriving DecidableEq, Repr

/-- Reading the response body either fails or yields its bytes. -/
inductive BodyRead where
  | readFailure (msg : String)
  | bytes (s : String)
deriving DecidableEq, Repr

/-- The observable outcome of the HTTP exchange: transport-level failure, or a
response with a status code and a body. -/
inductive HTTPOutcome where
  | transportFailure
  | response (status : Int) (body : BodyRead)
deriving DecidableEq, Repr

/-- The response-processing core of `doRequest` (client.go), generic over the
caller's response type via its decoder (Go instantiates the generic `Resp`
with `encoding/json` decoding). Mirrors the source: a transport failure is a
wrapped local error; on `resp.StatusCode != http.StatusOK` the body is read
(read failure gives a `READ_ERROR` API Error with the real status), decoded as
an API Error (failure gives an `UNKNOWN` API Error whose message is the raw
body) and its status overwritten with the real status; on status 200 the body
decodes into the caller's type, failure being a local decode error. -/
def doRequest {Resp : Type} (dec : String → Option Resp) :
    HTTPOutcome → DoResult Resp
  | HTTPOutcome.transportFailure => DoResult.localErr LocalErrKind.execute
  | HTTPOutcome.response status body =>
    if status ≠ 200 then
      match body with
      | BodyRead.readFailure msg =>
        DoResult.apiError
          { statusCode := status, code := "READ_ERROR",
            message := "failed to read response body: " ++ msg }
      | BodyRead.bytes b =>
        match unmarshalAPIError b with
        | none =>
          DoResult.apiError { statusCode := status, code := "UNKNOWN", message := b }
        | some e => DoResult.apiError { e with statusCode := status }
    else
      match body with
      | BodyRead.readFailure _ => DoResult.localErr LocalErrKind.decode
      | BodyRead.bytes b =>
        match dec b with
        | some r => DoResult.success r
        | none => DoResult.localErr LocalErrKind.decode

/-! ## The stream decoder

The reader goroutine of `ChatService.Stream` (client.go) repeatedly calls
`reader.ReadString('\n')` and reacts to the line or to the read error. Its
interaction with the transport is modelled as a finite trace of read results;
a read error carries whether the governing context was already cancelled at
that moment (`ctx.Err() != nil`) and whether it was `io.EOF`. The chunks sent
to the (unbuffered, single-producer) channel before it is closed appear as the
returned list, in emission order; returning from the goroutine closes the
channel. -/

/-- One result of `reader.ReadString('\n')`: a line, or a read failure
observed with the given cancellation and end-of-file status. -/
inductive SSEEvent where
  | line (raw : String)
  | readErr (ctxCancelled : Bool) (eof : Bool)
deriving DecidableEq, Repr

/-- The raw byte needle of the source's error-frame heuristic,
`strings.Contains(data, "\"error\":")`. -/
def errNeedle : String := "\"error\":"

/-- Whitespace as `strings.TrimSpace` sees it (the ASCII cases; the wire
protocol carries no exotic Unicode spacing). -/
def isWsChar (c : Char) : Bool :=
  c == ' ' || c == '\n' || c == '\t' || c == '\r'

/-- Go's `strings.TrimSpace`: drop leading and trailing whitespace. -/
def goTrimSpace (s : String) : String :=
  String.mk ((((s.data.dropWhile isWsChar).reverse.dropWhile isWsChar)).reverse)

/-- Decide whether `pat` is a prefix of `l`, character by character. -/
def charsStartWith : List Char → List Char → Bool
  | [], _ => true
  | _ :: _, [] => false
  | p :: ps, c :: cs => p == c && charsStartWith ps cs

/-- Decide whether `needle` occurs as a contiguous substring of the
character list, as Go's `strings.Contains` does on the underlying bytes. -/
def charsContain (needle : List Char) : List Char → Bool
  | [] => needle.isEmpty
  | c :: cs => charsStartWith needle (c :: cs) || charsContain needle cs

/-- Go's `strings.Contains(hay, needle)`. -/
def strContains (hay needle : String) : Bool :=
  charsContain needle.data hay.data

/-- A structural (parse-then-inspect) reading of "the payload contains an
`\"error\"` key": the payload parses as a JSON object one of whose top-level
fields is named `error`. The source instead uses the raw substring heuristic
`strContains`; this definition exists to state the difference. -/
def hasErrorKey (s : String) : Bool :=
  match parseJson s with
  | some (JVal.obj fields) => fields.any (fun f => f.1 == "error")
  | _ => false

/-- The reader loop of `ChatService.Stream`, one clause per branch of the
source: on a read error, return silently when the context is cancelled or at
EOF, otherwise emit one terminal read-failure chunk; on a line, trim it, skip
non-`data: ` lines, stop silently on the `[DONE]` token, treat a payload
containing the raw substring `"error":` that decodes as an API Error as a
terminal error frame (running `fillSentinel`), fall through to the ordinary
chunk decode otherwise, and emit a terminal decode-failure chunk when that
decode fails. An exhausted trace corresponds to a reader still blocked; no
further emissions are observed. -/
def streamLoop : List SSEEvent → List StreamChunk
  | [] => []
  | SSEEvent.readErr ctxCancelled eof :: _ =>
    if ctxCancelled then []
    else if eof then []
    else [{ err := some (ChunkErr.readFail "stream read") }]
  | SSEEvent.line raw :: rest =>
    let line := goTrimSpace raw
    if !(charsStartWith "data: ".data line.data) then streamLoop rest
    else
      let data := String.mk (line.data.drop 6)
      if data == "[DONE]" then []
      else if strContains data errNeedle then
        match unmarshalAPIError data with
        | some apiErr => [{ err := some (ChunkErr.api apiErr.fillSentinel) }]
        | none =>
          match unmarshalChunk data with
          | some chunk => chunk :: streamLoop rest
          | none => [{ err := some (ChunkErr.decodeFail "unmarshal chunk") }]
      else
        match unmarshalChunk data with
        | some chunk => chunk :: streamLoop rest
        | none => [{ err := some (ChunkErr.decodeFail "unmarshal chunk") }]

/-- A well-formed content-delta frame as delivered to the reader: after
trimming it is a `data: ` line, its payload is not the terminal token, does
not contain the raw error-frame needle, and decodes into the given chunk. -/
def goodFrame (p : String × StreamChunk) : Prop :=
  charsStartWith "data: ".data (goTrimSpace p.1).data = true ∧
  (String.mk ((goTrimSpace p.1).data.drop 6) == "[DONE]") = false ∧
  strContains (String.mk ((goTrimSpace p.1).data.drop 6)) errNeedle = false ∧
  unmarshalChunk (String.mk ((goTrimSpace p.1).data.drop 6)) = some p.2

instance (p : String × StreamChunk) : Decidable (goodFrame p) := by
  unfold goodFrame; infer_instance

/-! ## Service facade parameter mutation -/

/-- A chat message. Modelled from the spec and the repository's tests (the
request/response type definitions are not among the sources here). -/
structure Message where
  role : String := ""
  content : String := ""
deriving DecidableEq, Repr

/-- The caller-supplied chat parameters, passed to `Create`/`Stream` by
pointer. Modelled from the spec and the repository's tests: model, messages,
optional temperature, optional max-tokens cap, and the stream flag. -/
structure ChatParams where
  model : String := ""
  messages : List Message := []
  temperature : Option Float := none
  maxTokens : Option Nat := none
  stream : Bool := false

/-- The caller's `ChatParams` value after `ChatService.Create` ran: the source
executes `params.Stream = false` through the caller's pointer before sending
(client.go). -/
def createParams (p : ChatParams) : ChatParams :=
  { p with stream := false }

/-- The caller's `ChatParams` value after `ChatService.Stream` ran: the source
executes `params.Stream = true` through the caller's pointer before sending
(client.go). -/
def streamParams (p : ChatParams) : ChatParams :=
  { p with stream := true }

/-! ## Helper lemmas -/

/-- fillSentinel never changes the machine code. -/
theorem fillSentinel_code (e : APIError) : e.fillSentinel.code = e.code := by
  unfold APIError.fillSentinel
  cases hs : sentinelFor e.code <;> simp

/-- On an error value with no sentinel attached yet, `fillSentinel`
establishes the table invariant: `wrapped` equals the table's answer for the
value's own code. -/
theorem fillSentinel_wrapped_of_none (e : APIError) (h : e.wrapped = none) :
    e.fillSentinel.wrapped = sentinelFor e.fillSentinel.code := by
  rw [fillSentinel_code]
  unfold APIError.fillSentinel
  cases hs : sentinelFor e.code <;> simp [h, hs]

/-- Every successfully decoded API Error satisfies the table invariant: its
`wrapped` field is exactly the sentinel table's answer for its code. -/
theorem unmarshal_wrapped {b : String} {e : APIError}
    (h : unmarshalAPIError b = some e) : e.wrapped = sentinelFor e.code := by
  unfold unmarshalAPIError at h
  split at h
  · split at h
    · cases h
      exact fillSentinel_wrapped_of_none _ rfl
    · cases h
  · cases h
    decide
  · cases h

/-- A chunk obtained from the wire decoder never carries an error. -/
theorem unmarshalChunk_err {d : String} {c : StreamChunk}
    (h : unmarshalChunk d = some c) : c.err = none := by
  unfold unmarshalChunk at h
  split at h
  · split at h
    · cases h; rfl
    · split at h
      · cases h; rfl
      · cases h
    · cases h
  · cases h; rfl
  · cases h

/-! ## Claims about the request executor -/

/-- C1: for every non-success response whose body decodes into the API Error
shape with a machine code present in the sentinel table, the error `doRequest`
returns carries the corresponding sentinel in `wrapped`, so identity-based
matching (`errors.Is`) against that sentinel succeeds. -/
theorem c1_sentinel_matching {Resp : Type} (dec : String → Option Resp)
    (status : Int) (body : String) (e : APIError) (s : Sentinel)
    (hstatus : status ≠ 200)
    (hdec : unmarshalAPIError body = some e)
    (hsent : sentinelFor e.code = some s) :
    ∃ e2, doRequest dec (HTTPOutcome.response status (BodyRead.bytes body))
        = DoResult.apiError e2 ∧ errorsIs e2 s := by
  refine ⟨{ e with statusCode := status }, ?_, ?_⟩
  · simp [doRequest, hstatus, hdec]
  · show ({ e with statusCode := status } : APIError).wrapped = some s
    have hw := unmarshal_wrapped hdec
    simpa [hw] using hsent

/-- Witness for C1: the 401 `INVALID_API_KEY` body of
`TestDoRequest_401MapsToTypedError` satisfies every hypothesis and the match
against `ErrInvalidApiKey` succeeds. -/
theorem c1_sentinel_matching_witness :
    ∃ e2, doRequest (fun _ => (none : Option Bool))
        (HTTPOutcome.response 401
          (BodyRead.bytes "\x7b\"error\":\"Invalid API key\",\"code\":\"INVALID_API_KEY\"\x7d"))
        = DoResult.apiError e2 ∧ errorsIs e2 Sentinel.errInvalidApiKey :=
  c1_sentinel_matching (fun _ => (none : Option Bool)) 401 _
    { statusCode := 0, code := "INVALID_API_KEY", message := "Invalid API key",
      wrapped := some Sentinel.errInvalidApiKey }
    Sentinel.errInvalidApiKey (by decide) (by decide) (by decide)

/-- C2 counterexample: the source treats only status 200 (`http.StatusOK`) as
success, so the 2xx response `201` with a JSON body that decodes into the
caller's expected type is not decoded and returned — it produces an API Error
(code `UNKNOWN` would arise for non-object bodies; here the object body even
decodes as an empty API Error), contradicting the claim over all 2xx. -/
theorem c2_counterexample :
    doRequest (fun s => (parseJson s).map (fun _ => true))
        (HTTPOutcome.response 201 (BodyRead.bytes "\x7b\"id\":\"x\"\x7d"))
      = DoResult.apiError { statusCode := 201, code := "", message := "" } := by
  decide

/-- C2 as amended: for every response with status exactly 200
(`http.StatusOK`), `doRequest` JSON-decodes the body into the caller's
expected response type and returns it; a decode failure on that path is a
local decode error, and no API Error is ever produced for a 200 response. -/
theorem c2_success_decode {Resp : Type} (dec : String → Option Resp)
    (body : String) :
    (∀ r, dec body = some r →
      doRequest dec (HTTPOutcome.response 200 (BodyRead.bytes body))
        = DoResult.success r) ∧
    (dec body = none →
      doRequest dec (HTTPOutcome.response 200 (BodyRead.bytes body))
        = DoResult.localErr LocalErrKind.decode) ∧
    (∀ (bodyR : BodyRead) (e : APIError),
      doRequest dec (HTTPOutcome.response 200 bodyR) ≠ DoResult.apiError e) := by
  refine ⟨?_, ?_, ?_⟩
  · intro r hr
    simp [doRequest, hr]
  · intro hr
    simp [doRequest, hr]
  · intro bodyR e h
    have h200 : ¬((200 : Int) ≠ 200) := by simp
    cases bodyR with
    | readFailure msg =>
      simp only [doRequest, if_neg h200] at h
      cases h
    | bytes b =>
      simp only [doRequest, if_neg h200] at h
      cases hb : dec b <;> rw [hb] at h <;> simp at h

/-- Witness for C2 as amended: a 200 response whose body decodes, one whose
body does not, and the impossibility of an API Error on a concrete 200
response. -/
theorem c2_success_decode_witness :
    (doRequest (fun s => (parseJson s).map (fun _ => true))
        (HTTPOutcome.response 200 (BodyRead.bytes "\x7b\"id\":\"x\"\x7d"))
      = DoResult.success true) ∧
    (doRequest (fun _ => (none : Option Bool))
        (HTTPOutcome.response 200 (BodyRead.bytes "oops"))
      = DoResult.localErr LocalErrKind.decode) ∧
    (doRequest (fun s => (parseJson s).map (fun _ => true))
        (HTTPOutcome.response 200 (BodyRead.bytes "\x7b\"id\":\"x\"\x7d"))
      ≠ DoResult.apiError { statusCode := 200, code := "", message := "" }) :=
  ⟨(c2_success_decode (fun s => (parseJson s).map (fun _ => true))
      "\x7b\"id\":\"x\"\x7d").1 true (by decide),
   (c2_success_decode (fun _ => (none : Option Bool)) "oops").2.1 rfl,
   (c2_success_decode (fun s => (parseJson s).map (fun _ => true))
      "\x7b\"id\":\"x\"\x7d").2.2 _ _⟩

/-- C6: for every non-success response whose body does not decode into the
API Error shape, the executor returns an API Error with code `UNKNOWN`, the
raw body text as the message, and the real HTTP status code. -/
theorem c6_unknown_raw_body {Resp : Type} (dec : String → Option Resp)
    (status : Int) (body : String)
    (hstatus : status ≠ 200)
    (hfail : unmarshalAPIError body = none) :
    doRequest dec (HTTPOutcome.response status (BodyRead.bytes body))
      = DoResult.apiError { statusCode := status, code := "UNKNOWN", message := body } := by
  simp [doRequest, hstatus, hfail]

/-- Witness for C6: the `not a json` 400 body of
`TestErrorDecoding_InvalidJSON` (and the `not json` 500 case of
`TestHandleError`). -/
theorem c6_unknown_raw_body_witness :
    doRequest (fun _ => (none : Option Bool))
        (HTTPOutcome.response 400 (BodyRead.bytes "not a json"))
      = DoResult.apiError { statusCode := 400, code := "UNKNOWN", message := "not a json" } :=
  c6_unknown_raw_body (fun _ => (none : Option Bool)) 400 "not a json"
    (by decide) (by decide)

/-- C7: every API Error the executor produces for a non-success response
carries that response's real HTTP status code, whether the body was
unreadable, unstructured, or structured JSON carrying a forged status. -/
theorem c7_status_overwrite {Resp : Type} (dec : String → Option Resp)
    (status : Int) (bodyR : BodyRead) (e : APIError)
    (hstatus : status ≠ 200)
    (h : doRequest dec (HTTPOutcome.response status bodyR) = DoResult.apiError e) :
    e.statusCode = status := by
  cases bodyR with
  | readFailure msg =>
    simp only [doRequest, if_pos hstatus] at h
    cases h
    rfl
  | bytes b =>
    simp only [doRequest, if_pos hstatus] at h
    split at h <;> cases h <;> rfl

/-- Witness for C7: a 503 response whose structured body forges
`status_code = 999`; the produced error still carries 503. -/
theorem c7_status_overwrite_witness :
    ({ statusCode := 503, code := "PROVIDER_ERROR", message := "x",
       wrapped := some Sentinel.errProvider } : APIError).statusCode = 503 :=
  c7_status_overwrite (fun _ => (none : Option Bool)) 503
    (BodyRead.bytes "\x7b\"status_code\": 999, \"error\": \"x\", \"code\": \"PROVIDER_ERROR\"\x7d")
    { statusCode := 503, code := "PROVIDER_ERROR", message := "x",
      wrapped := some Sentinel.errProvider }
    (by decide) (by decide)

/-! ## Claims about the error model -/

/-- C8: `fillSentinel` is idempotent — applying it twice yields the same
value (hence the same `wrapped`) as applying it once — and for every code
absent from the sentinel table it is a no-op, which in particular leaves an
unset `wrapped` unset. -/
theorem c8_fillSentinel_idempotent (e : APIError) :
    e.fillSentinel.fillSentinel = e.fillSentinel ∧
    (sentinelFor e.code = none → e.fillSentinel = e) ∧
    (sentinelFor e.code = none → e.wrapped = none → e.fillSentinel.wrapped = none) := by
  refine ⟨?_, ?_, ?_⟩
  · unfold APIError.fillSentinel
    cases hs : sentinelFor e.code <;> simp [hs]
  · intro hs
    unfold APIError.fillSentinel
    rw [hs]
  · intro hs hw
    unfold APIError.fillSentinel
    rw [hs]
    exact hw

/-- Witness for C8: the unrecognized code of `TestHandleError`'s malformed
case is a no-op and keeps `wrapped` unset. -/
theorem c8_fillSentinel_idempotent_witness :
    ({ statusCode := 500, code := "SOMETHING_ELSE", message := "m" } : APIError).fillSentinel.fillSentinel
      = ({ statusCode := 500, code := "SOMETHING_ELSE", message := "m" } : APIError).fillSentinel ∧
    ({ statusCode := 500, code := "SOMETHING_ELSE", message := "m" } : APIError).fillSentinel
      = { statusCode := 500, code := "SOMETHING_ELSE", message := "m" } ∧
    ({ statusCode := 500, code := "SOMETHING_ELSE", message := "m" } : APIError).fillSentinel.wrapped
      = none := by
  have h := c8_fillSentinel_idempotent
    { statusCode := 500, code := "SOMETHING_ELSE", message := "m" }
  exact ⟨h.1, h.2.1 (by decide), h.2.2 (by decide) rfl⟩

/-- C9: the formatting operation renders
`"cencori: <message> (code: <code>, status: <status_code>)"` when the code is
non-empty and `"cencori: <message> (status: <status_code>)"` when it is
empty. -/
theorem c9_error_format (e : APIError) :
    (e.code ≠ "" →
      e.Error = "cencori: " ++ e.message ++ " (code: " ++ e.code
        ++ ", status: " ++ toString e.statusCode ++ ")") ∧
    (e.code = "" →
      e.Error = "cencori: " ++ e.message ++ " (status: "
        ++ toString e.statusCode ++ ")") := by
  constructor <;> intro h <;> simp [APIError.Error, h]

/-- Witness for C9: the two vectors of `TestAPIError_Error`. -/
theorem c9_error_format_witness :
    ({ statusCode := 401, code := "INVALID_API_KEY", message := "Invalid API key" } : APIError).Error
      = "cencori: Invalid API key (code: INVALID_API_KEY, status: 401)" ∧
    ({ statusCode := 500, code := "", message := "Server error" } : APIError).Error
      = "cencori: Server error (status: 500)" := by
  constructor
  · rw [(c9_error_format
      { statusCode := 401, code := "INVALID_API_KEY", message := "Invalid API key" }).1
      (by decide)]
    decide
  · rw [(c9_error_format
      { statusCode := 500, code := "", message := "Server error" }).2 rfl]
    decide

/-! ## Claim about the service facades -/

/-- C10: `Create` overwrites the caller's `Stream` field to `false` and
`Stream` overwrites it to `true`, both leave every other field unchanged, and
whenever the caller's `Stream` field disagreed with the overwritten value the
caller's value after the call differs from the value passed in. -/
theorem c10_params_mutation (p : ChatParams) :
    ((createParams p).stream = false ∧ (streamParams p).stream = true) ∧
    ((createParams p).model = p.model ∧ (createParams p).messages = p.messages ∧
     (createParams p).temperature = p.temperature ∧
     (createParams p).maxTokens = p.maxTokens) ∧
    ((streamParams p).model = p.model ∧ (streamParams p).messages = p.messages ∧
     (streamParams p).temperature = p.temperature ∧
     (streamParams p).maxTokens = p.maxTokens) ∧
    (p.stream = true → createParams p ≠ p) ∧
    (p.stream = false → streamParams p ≠ p) := by
  refine ⟨⟨rfl, rfl⟩, ⟨rfl, rfl, rfl, rfl⟩, ⟨rfl, rfl, rfl, rfl⟩, ?_, ?_⟩
  · intro hs hEq
    have := congrArg ChatParams.stream hEq
    rw [hs] at this
    exact Bool.false_ne_true this
  · intro hs hEq
    have := congrArg ChatParams.stream hEq
    rw [hs] at this
    exact Bool.false_ne_true this.symm

/-- Witness for C10: a caller who passed `Stream = true` into `Create` (and
`Stream = false` into `Stream`) observes a changed value afterwards. -/
theorem c10_params_mutation_witness :
    createParams { stream := true } ≠ ({ stream := true } : ChatParams) ∧
    streamParams { stream := false } ≠ ({ stream := false } : ChatParams) :=
  ⟨(c10_params_mutation { stream := true }).2.2.2.1 rfl,
   (c10_params_mutation { stream := false }).2.2.2.2 rfl⟩

/-! ## Claims about the stream decoder -/

/-- Processing one well-formed content-delta line emits its chunk and
continues with the rest of the trace. -/
theorem streamLoop_frame (raw : String) (rest : List SSEEvent) (c : StreamChunk)
    (h1 : charsStartWith "data: ".data (goTrimSpace raw).data = true)
    (h2 : (String.mk ((goTrimSpace raw).data.drop 6) == "[DONE]") = false)
    (h3 : strContains (String.mk ((goTrimSpace raw).data.drop 6)) errNeedle = false)
    (h4 : unmarshalChunk (String.mk ((goTrimSpace raw).data.drop 6)) = some c) :
    streamLoop (SSEEvent.line raw :: rest) = c :: streamLoop rest := by
  simp [streamLoop, h1, h2, h3, h4]

/-- Processing a line whose payload contains the raw needle and decodes as an
API Error emits one terminal error frame. -/
theorem streamLoop_errFrame (raw : String) (rest : List SSEEvent) (e : APIError)
    (h1 : charsStartWith "data: ".data (goTrimSpace raw).data = true)
    (h2 : (String.mk ((goTrimSpace raw).data.drop 6) == "[DONE]") = false)
    (h3 : strContains (String.mk ((goTrimSpace raw).data.drop 6)) errNeedle = true)
    (h4 : unmarshalAPIError (String.mk ((goTrimSpace raw).data.drop 6)) = some e) :
    streamLoop (SSEEvent.line raw :: rest)
      = [{ err := some (ChunkErr.api e.fillSentinel) }] := by
  simp [streamLoop, h1, h2, h3, h4]

/-- The terminal-token payload never contains the error needle, so an
error-needle payload is never `[DONE]`. -/
theorem not_done_of_needle {d : String}
    (h : strContains d errNeedle = true) : (d == "[DONE]") = false := by
  cases hb : d == "[DONE]" with
  | false => rfl
  | true =>
    rw [eq_of_beq hb] at h
    exact absurd h (by decide)

/-- C3 counterexample: the payload
`{"error" : "boom", "code": "PROVIDER_ERROR"}` carries an `error` key (by a
structural parse-then-inspect check), yet because the source detects error
frames with the raw substring `"error":` — defeated here by the space before
the colon — the decoder does not treat the line as an error frame: it emits
it as an ordinary contentless chunk and keeps reading further frames. -/
theorem c3_counterexample :
    hasErrorKey "\x7b\"error\" : \"boom\", \"code\": \"PROVIDER_ERROR\"\x7d" = true ∧
    streamLoop
        [SSEEvent.line "data: \x7b\"error\" : \"boom\", \"code\": \"PROVIDER_ERROR\"\x7d",
         SSEEvent.line "data: \x7b\"choices\": [\x7b\"delta\": \x7b\"content\": \"Hi\"\x7d\x7d]\x7d",
         SSEEvent.line "data: [DONE]"]
      = [{ choices := [], err := none },
         { choices := [{ delta := { content := "Hi" } }], err := none }] := by
  decide

/-- C3 as amended: a data line whose payload contains the raw substring
`"error":` and JSON-decodes into the API Error shape is treated as an
out-of-band error frame — decoded, sentinel-classified, emitted as the final
chunk, with no further frames read — and a data line whose payload does not
contain that substring is never emitted as an API-error frame: when it decodes
as a chunk it is emitted as an ordinary, errorless chunk. The detection is the
raw substring heuristic, not a structural error-key check. -/
theorem c3_error_frame :
    (∀ (raw : String) (rest : List SSEEvent) (e : APIError),
      charsStartWith "data: ".data (goTrimSpace raw).data = true →
      strContains (String.mk ((goTrimSpace raw).data.drop 6)) errNeedle = true →
      unmarshalAPIError (String.mk ((goTrimSpace raw).data.drop 6)) = some e →
      streamLoop (SSEEvent.line raw :: rest)
        = [{ err := some (ChunkErr.api e.fillSentinel) }]) ∧
    (∀ (raw : String) (rest : List SSEEvent) (c : StreamChunk),
      charsStartWith "data: ".data (goTrimSpace raw).data = true →
      strContains (String.mk ((goTrimSpace raw).data.drop 6)) errNeedle = false →
      (String.mk ((goTrimSpace raw).data.drop 6) == "[DONE]") = false →
      unmarshalChunk (String.mk ((goTrimSpace raw).data.drop 6)) = some c →
      streamLoop (SSEEvent.line raw :: rest) = c :: streamLoop rest ∧ c.err = none) := by
  constructor
  · intro raw rest e h1 h3 h4
    exact streamLoop_errFrame raw rest e h1 (not_done_of_needle h3) h3 h4
  · intro raw rest c h1 h3 h2 h4
    exact ⟨streamLoop_frame raw rest c h1 h2 h3 h4, unmarshalChunk_err h4⟩

/-- Witness for C3 as amended: the mid-stream error frame of
`TestChat_Stream_MidErrorFrame` is emitted as the terminal error chunk with
the `ErrProvider` sentinel filled in, and an ordinary delta line is emitted as
an errorless chunk. -/
theorem c3_error_frame_witness :
    streamLoop [SSEEvent.line "data: \x7b\"error\": \"boom\", \"code\": \"PROVIDER_ERROR\"\x7d"]
      = [{ err := some (ChunkErr.api
          { statusCode := 0, code := "PROVIDER_ERROR", message := "boom",
            wrapped := some Sentinel.errProvider }) }] ∧
    (streamLoop [SSEEvent.line "data: \x7b\"choices\": [\x7b\"delta\": \x7b\"content\": \"Hi\"\x7d\x7d]\x7d"]
        = { choices := [{ delta := { content := "Hi" } }], err := none } :: streamLoop [] ∧
      ({ choices := [{ delta := { content := "Hi" } }], err := none } : StreamChunk).err = none) := by
  constructor
  · exact c3_error_frame.1 _ []
      { statusCode := 0, code := "PROVIDER_ERROR", message := "boom",
        wrapped := some Sentinel.errProvider }
      (by decide) (by decide) (by decide)
  · exact c3_error_frame.2 _ []
      { choices := [{ delta := { content := "Hi" } }], err := none }
      (by decide) (by decide) (by decide) (by decide)

/-- C4: non-data lines are ignored, and a streamed sequence of well-formed
content-delta frames followed by the terminal `[DONE]` token emits exactly
those frames' chunks, in arrival order, then closes — no chunk for the
terminal token and no trailing error chunk. -/
theorem c4_round_trip :
    (∀ (raw : String) (rest : List SSEEvent),
      charsStartWith "data: ".data (goTrimSpace raw).data = false →
      streamLoop (SSEEvent.line raw :: rest) = streamLoop rest) ∧
    (∀ ps : List (String × StreamChunk), (∀ p ∈ ps, goodFrame p) →
      streamLoop (ps.map (fun p => SSEEvent.line p.1) ++ [SSEEvent.line "data: [DONE]"])
        = ps.map Prod.snd) := by
  constructor
  · intro raw rest h
    simp [streamLoop, h]
  · intro ps
    induction ps with
    | nil => intro _; decide
    | cons p ps ih =>
      intro hgood
      obtain ⟨h1, h2, h3, h4⟩ := hgood p (List.mem_cons_self p ps)
      have hrest : ∀ q ∈ ps, goodFrame q :=
        fun q hq => hgood q (List.mem_cons_of_mem p hq)
      simp only [List.map_cons, List.cons_append]
      rw [streamLoop_frame p.1 _ p.2 h1 h2 h3 h4, ih hrest]

/-- Witness for C4: the two-delta stream of `TestChat_Stream_Success` (with a
blank separator line, which is ignored) yields exactly its two chunks in
order, and nothing for `[DONE]`. -/
theorem c4_round_trip_witness :
    streamLoop [SSEEvent.line "\n", SSEEvent.line "data: [DONE]"]
      = streamLoop [SSEEvent.line "data: [DONE]"] ∧
    streamLoop
        [SSEEvent.line "data: \x7b\"choices\": [\x7b\"delta\": \x7b\"content\": \"Hello\"\x7d\x7d]\x7d",
         SSEEvent.line "data: \x7b\"choices\": [\x7b\"delta\": \x7b\"content\": \"!\"\x7d\x7d]\x7d",
         SSEEvent.line "data: [DONE]"]
      = [{ choices := [{ delta := { content := "Hello" } }] },
         { choices := [{ delta := { content := "!" } }] }] := by
  constructor
  · exact c4_round_trip.1 "\n" _ (by decide)
  · exact c4_round_trip.2
      [("data: \x7b\"choices\": [\x7b\"delta\": \x7b\"content\": \"Hello\"\x7d\x7d]\x7d",
        { choices := [{ delta := { content := "Hello" } }] }),
       ("data: \x7b\"choices\": [\x7b\"delta\": \x7b\"content\": \"!\"\x7d\x7d]\x7d",
        { choices := [{ delta := { content := "!" } }] })]
      (by decide)

/-- C5: a read failure observed while the governing context is cancelled
emits nothing — the reader returns and the channel is closed with no chunk
describing the cancellation — including after any number of already-delivered
content chunks, and regardless of what would follow. -/
theorem c5_cancellation :
    (∀ (eof : Bool) (rest : List SSEEvent),
      streamLoop (SSEEvent.readErr true eof :: rest) = []) ∧
    (∀ (ps : List (String × StreamChunk)) (eof : Bool) (rest : List SSEEvent),
      (∀ p ∈ ps, goodFrame p) →
      streamLoop (ps.map (fun p => SSEEvent.line p.1) ++ SSEEvent.readErr true eof :: rest)
        = ps.map Prod.snd) := by
  constructor
  · intro eof rest
    simp [streamLoop]
  · intro ps eof rest
    induction ps with
    | nil => intro _; simp [streamLoop]
    | cons p ps ih =>
      intro hgood
      obtain ⟨h1, h2, h3, h4⟩ := hgood p (List.mem_cons_self p ps)
      have hrest : ∀ q ∈ ps, goodFrame q :=
        fun q hq => hgood q (List.mem_cons_of_mem p hq)
      simp only [List.map_cons, List.cons_append]
      rw [streamLoop_frame p.1 _ p.2 h1 h2 h3 h4, ih hrest]

/-- Witness for C5: the `TestChat_Stream_ContextCancel` trace — one delivered
chunk, then a read failure under a cancelled context — yields exactly the one
chunk and no cancellation error chunk. -/
theorem c5_cancellation_witness :
    streamLoop [SSEEvent.readErr true false] = [] ∧
    streamLoop
        [SSEEvent.line "data: \x7b\"choices\": [\x7b\"delta\": \x7b\"content\": \"Hello\"\x7d\x7d]\x7d",
         SSEEvent.readErr true false]
      = [{ choices := [{ delta := { content := "Hello" } }] }] := by
  constructor
  · exact c5_cancellation.1 false []
  · exact c5_cancellation.2
      [("data: \x7b\"choices\": [\x7b\"delta\": \x7b\"content\": \"Hello\"\x7d\x7d]\x7d",
        { choices := [{ delta := { content := "Hello" } }] })]
      false [] (by decide)

end Cencori





